import Mathlib

/-!
Shallow embedding of the two core components of the FloatChat repository:

* the export job tracker, components/DataExport.tsx (the useState hooks,
  handleExport and simulateExport), and
* the live update feed client, the RealTimeUpdates component
  (connectWebSocket, its WebSocket handlers, handleRealtimeUpdate and the
  unmount cleanup).

Timestamps (Date.now, new Date) are modelled as natural numbers, sockets
and timers as handles numbered by creation order, and the asynchronous
timer continuations as explicit events of a transition function, so that a
trace of events embeds one interleaving of the host event loop.
-/

namespace FloatChat

/-- Status values of the ExportRequest interface in DataExport.tsx. -/
inductive JobStatus
  | pending
  | processing
  | completed
  | failed
  deriving DecidableEq

/-- Embedding of the ExportRequest record (DataExport.tsx, lines 29 to 41). -/
structure ExportRequest where
  id : String
  format : String
  parameters : List String
  timeRange : String
  region : String
  status : JobStatus
  progress : Nat
  createdAt : Nat
  completedAt : Option Nat
  downloadUrl : Option String
  fileSize : Option Nat
  deriving DecidableEq

/-- Component state of DataExport (its useState hooks).  The schedule field
records the timer continuations of a running simulateExport call: the entry
(id, k) is the k-th pending 500 ms continuation for the job with that id.
The continuations of one job are strictly ordered (each setTimeout is
awaited before the next is created), so a FIFO queue embeds the timers of
the source. -/
structure TrackerState where
  isOpen : Bool
  selectedFormat : String
  selectedParameters : List String
  timeRange : String
  region : String
  exportRequests : List ExportRequest
  isExporting : Bool
  schedule : List (String × Nat)
  deriving DecidableEq

/-- Result of handleExport: the synchronous rejection (the early return
with toast.error for an empty parameter selection) or the id of the job
that was started. -/
inductive SubmitResult
  | invalidRequest
  | started (id : String)
  deriving DecidableEq

/-- The new ExportRequest built by handleExport (DataExport.tsx 129 to 138). -/
def newExportRequest (now : Nat) (s : TrackerState) : ExportRequest :=
  { id := "export_" ++ toString now
    format := s.selectedFormat
    parameters := s.selectedParameters
    timeRange := s.timeRange
    region := s.region
    status := .pending
    progress := 0
    createdAt := now
    completedAt := none
    downloadUrl := none
    fileSize := none }

/-- The eleven timer continuations scheduled by one simulateExport call:
its for loop runs progress = 0, 10, ..., 100, eleven iterations, each one
awaiting a 500 ms setTimeout first. -/
def turnsFor (id : String) : List (String × Nat) :=
  (List.range 11).map (fun k => (id, k))

/-- handleExport (DataExport.tsx 121 to 146): reject when no parameter is
selected (no state change), otherwise set isExporting, prepend the new
pending job, close the modal and start simulateExport, embedded as queueing
its timer continuations. -/
def handleExport (now : Nat) (s : TrackerState) : TrackerState × SubmitResult :=
  if s.selectedParameters.isEmpty then
    (s, .invalidRequest)
  else
    let job := newExportRequest now s
    ({ s with
        isExporting := true,
        exportRequests := job :: s.exportRequests,
        isOpen := false,
        schedule := s.schedule ++ turnsFor job.id },
      .started job.id)

/-- One progress tick of simulateExport (DataExport.tsx 153 to 159): the
id-matched job is set to the given progress with status processing. -/
def tickUpdate (requestId : String) (p : Nat) (reqs : List ExportRequest) :
    List ExportRequest :=
  reqs.map (fun r =>
    if r.id = requestId then { r with progress := p, status := .processing } else r)

/-- The completion update of simulateExport (DataExport.tsx 163 to 176). -/
def completeUpdate (requestId : String) (now sz : Nat) (reqs : List ExportRequest) :
    List ExportRequest :=
  reqs.map (fun r =>
    if r.id = requestId then
      { r with
          status := .completed,
          progress := 100,
          completedAt := some now,
          downloadUrl := some "#",
          fileSize := some sz }
    else r)

/-- The k-th timer continuation of simulateExport.  For k below 10 it is
the tick at progress 10 * k.  The last continuation (k = 10) runs the tick
at progress 100 and then, with no await between the two, the completion
update; no other code of the host event loop can run between them, so they
form one atomic step. -/
def applyTurn (requestId : String) (k now sz : Nat) (reqs : List ExportRequest) :
    List ExportRequest :=
  if k < 10 then tickUpdate requestId (10 * k) reqs
  else completeUpdate requestId now sz (tickUpdate requestId 100 reqs)

/-- handleParameterToggle (DataExport.tsx 113 to 119). -/
def toggleParameter (pid : String) (ps : List String) : List String :=
  if pid ∈ ps then ps.filter (fun q => q ≠ pid) else ps ++ [pid]

/-- Observable events of the DataExport component: the UI setters, a click
on the Start Export button (carrying the Date.now value) and the firing of
the next scheduled simulateExport continuation (carrying the new Date and
Math.random derived fileSize values of the completion update). -/
inductive TrackerEv
  | setFormat (f : String)
  | toggleParam (p : String)
  | setTimeRangeEv (t : String)
  | setRegionEv (r : String)
  | openModal
  | closeModal
  | clickStartExport (now : Nat)
  | fireTurn (now sz : Nat)

/-- Transition function of the DataExport component.  clickStartExport is
guarded by the disabled attribute of the Start Export button
(DataExport.tsx 418): disabled while isExporting or while no parameter is
selected, in which case the click fires no handler.  fireTurn pops and runs
the next pending simulateExport continuation, if any. -/
def trackerStep (e : TrackerEv) (s : TrackerState) : TrackerState :=
  match e with
  | .setFormat f => { s with selectedFormat := f }
  | .toggleParam p =>
      { s with selectedParameters := toggleParameter p s.selectedParameters }
  | .setTimeRangeEv t => { s with timeRange := t }
  | .setRegionEv r => { s with region := r }
  | .openModal => { s with isOpen := true }
  | .closeModal => { s with isOpen := false }
  | .clickStartExport now =>
      if s.isExporting || s.selectedParameters.isEmpty then s
      else (handleExport now s).1
  | .fireTurn now sz =>
      match s.schedule with
      | [] => s
      | (id, k) :: rest =>
          { s with
              exportRequests := applyTurn id k now sz s.exportRequests,
              schedule := rest }

/-- Initial component state: the useState initialisers of DataExport.tsx. -/
def initTracker : TrackerState :=
  { isOpen := false
    selectedFormat := "csv"
    selectedParameters := ["temperature", "salinity"]
    timeRange := "7d"
    region := "global"
    exportRequests := []
    isExporting := false
    schedule := [] }

/-- Folding a trace of events from a given state. -/
def runTracker (es : List TrackerEv) (s : TrackerState) : TrackerState :=
  es.foldl (fun t e => trackerStep e t) s

/-- A state is reachable when some event trace leads to it from the initial
state. -/
def TrackerReachable (s : TrackerState) : Prop :=
  ∃ es, runTracker es initTracker = s

/-- Shape of the unique job after m fired simulateExport continuations:
still the pending record created by handleExport for m = 0, processing at
progress 10 * n after the continuation number n (m = n + 1, n below 10),
and completed with the stamped fields after the final continuation
(m = 11). -/
def JobShape (j0 : ExportRequest) (m : Nat) (r : ExportRequest) : Prop :=
  match m with
  | 0 => r = j0
  | Nat.succ n =>
      if n < 10 then
        r = { j0 with status := .processing, progress := 10 * n }
      else
        ∃ cAt sz,
          r = { j0 with
                  status := .completed,
                  progress := 100,
                  completedAt := some cAt,
                  downloadUrl := some "#",
                  fileSize := some sz }

/-- Characterisation of the reachable DataExport states: either no export
was ever accepted, or exactly one job exists (the Start Export button is
disabled from the first accepted click on, and isExporting is never reset),
created pending by handleExport and advanced by the m continuations fired
so far. -/
def TrackerInv (s : TrackerState) : Prop :=
  (s.isExporting = false ∧ s.exportRequests = [] ∧ s.schedule = [])
  ∨ ∃ j0 m r,
      s.isExporting = true ∧ m ≤ 11 ∧
      j0.status = .pending ∧ j0.progress = 0 ∧ j0.completedAt = none ∧
      j0.downloadUrl = none ∧ j0.fileSize = none ∧
      s.schedule = (turnsFor j0.id).drop m ∧
      s.exportRequests = [r] ∧ JobShape j0 m r

/-- Kinds of inbound update messages (the type field of UpdateData in the
RealTimeUpdates component). -/
inductive UpdateKind
  | float_update
  | data_sync
  | system_alert
  deriving DecidableEq

/-- Severity values (the status field of UpdateData). -/
inductive UpdateSeverity
  | success
  | warning
  | error
  deriving DecidableEq

/-- Embedding of the UpdateData record of the RealTimeUpdates component
(part_002, lines 19 to 26); the untyped data payload is kept as a string. -/
structure UpdateData where
  id : String
  type : UpdateKind
  message : String
  timestamp : Nat
  status : UpdateSeverity
  data : Option String
  deriving DecidableEq

/-- Aggregate counters: the stats useState of RealTimeUpdates. -/
structure Stats where
  totalFloats : Nat
  activeFloats : Nat
  dataPoints : Nat
  lastSync : Nat
  deriving DecidableEq

/-- Partial update of the aggregate counters, carried on the stats field of
an inbound message; a field that the message does not name is none. -/
structure StatsPatch where
  totalFloats : Option Nat
  activeFloats : Option Nat
  dataPoints : Option Nat
  lastSync : Option Nat
  deriving DecidableEq

/-- Embedding of the object-spread merge of part_002 line 115, which copies
prev and then overwrites every field named by the patch: a named field
overwrites, every other field is kept. -/
def mergeStats (prev : Stats) (p : StatsPatch) : Stats :=
  { totalFloats := p.totalFloats.getD prev.totalFloats
    activeFloats := p.activeFloats.getD prev.activeFloats
    dataPoints := p.dataPoints.getD prev.dataPoints
    lastSync := p.lastSync.getD prev.lastSync }

/-- Parsed inbound message shape, the data argument of handleRealtimeUpdate;
the source reads the fields type, message, status, data and stats, with
defaults for the absent ones. -/
structure Payload where
  type : Option UpdateKind
  message : Option String
  status : Option UpdateSeverity
  data : Option String
  stats : Option StatsPatch
  deriving DecidableEq

/-- The UpdateData record built by handleRealtimeUpdate (part_002, lines
101 to 108), with the source defaults for type, message and status. -/
def mkUpdate (p : Payload) (now : Nat) : UpdateData :=
  { id := "update_" ++ toString now
    type := p.type.getD .data_sync
    message := p.message.getD "Data updated"
    timestamp := now
    status := p.status.getD .success
    data := p.data }

/-- Component state of RealTimeUpdates plus the browser resources it owns.
liveSockets lists the created sockets whose close event has not yet been
delivered, closeRequested the sockets on which close() was called, and
activeTimers the armed (neither cancelled nor fired) reconnect timers.
Sockets and timers are numbered by creation order. -/
structure FeedState where
  isConnected : Bool
  updates : List UpdateData
  lastUpdate : Nat
  stats : Stats
  wsRef : Option Nat
  reconnectTimeout : Option Nat
  nextSocket : Nat
  nextTimer : Nat
  liveSockets : List Nat
  closeRequested : List Nat
  activeTimers : List Nat
  deriving DecidableEq

/-- handleRealtimeUpdate (part_002, lines 100 to 126): prepend the new
update and keep the first 50 entries, stamp lastUpdate, and merge the stats
patch into the counters when the message carries one. -/
def handleRealtimeUpdate (p : Payload) (now : Nat) (st : FeedState) : FeedState :=
  { st with
      updates := (mkUpdate p now :: st.updates).take 50,
      lastUpdate := now,
      stats :=
        match p.stats with
        | some sp => mergeStats st.stats sp
        | none => st.stats }

/-- connectWebSocket (part_002, lines 58 to 98): unconditionally construct
a new WebSocket, attach its handlers and overwrite wsRef with it.  The
source has no guard on the current connection state and does not close the
previously referenced socket. -/
def connectStep (st : FeedState) : FeedState :=
  { st with
      wsRef := some st.nextSocket,
      nextSocket := st.nextSocket + 1,
      liveSockets := st.nextSocket :: st.liveSockets }

/-- Event-loop events of the feed client: an invocation of connectWebSocket
(the mount effect or the Refresh button), delivery of the open, message,
close and error events of a socket, the unmount cleanup, and the firing of
a reconnect timer.  A message event carries the parse result of its raw
payload: none stands for an unparseable payload, on which JSON.parse
throws. -/
inductive FeedEv
  | connect
  | openEvent (sock : Nat)
  | messageEvent (sock : Nat) (raw : Option Payload) (now : Nat)
  | closeEvent (sock : Nat)
  | errorEvent (sock : Nat)
  | cleanup
  | timerFire (t : Nat)

/-- Transition function of the feed client.  Handler events apply only to a
live socket.  A close event may reach any live socket (server close,
transport failure, or a requested close), and its handler (part_002, lines
77 to 86) sets isConnected false and unconditionally arms a fresh 5 second
reconnect timer.  The onmessage handler (lines 68 to 75) catches the parse
failure of a malformed payload and does nothing else with it.  The unmount
cleanup (lines 44 to 51) requests close on the referenced socket and
cancels the pending reconnect timer, if one is armed. -/
def feedStep (e : FeedEv) (st : FeedState) : FeedState :=
  match e with
  | .connect => connectStep st
  | .openEvent sock =>
      if sock ∈ st.liveSockets then { st with isConnected := true } else st
  | .messageEvent sock raw now =>
      if sock ∈ st.liveSockets then
        match raw with
        | none => st
        | some p => handleRealtimeUpdate p now st
      else st
  | .closeEvent sock =>
      if sock ∈ st.liveSockets then
        { st with
            isConnected := false,
            liveSockets := st.liveSockets.erase sock,
            reconnectTimeout := some st.nextTimer,
            activeTimers := st.nextTimer :: st.activeTimers,
            nextTimer := st.nextTimer + 1 }
      else st
  | .errorEvent sock =>
      if sock ∈ st.liveSockets then { st with isConnected := false } else st
  | .cleanup =>
      let st1 :=
        match st.wsRef with
        | some sock => { st with closeRequested := sock :: st.closeRequested }
        | none => st
      match st1.reconnectTimeout with
      | some t => { st1 with activeTimers := st1.activeTimers.erase t }
      | none => st1
  | .timerFire t =>
      if t ∈ st.activeTimers then
        connectStep { st with activeTimers := st.activeTimers.erase t }
      else st

/-- Initial component state: the useState initialisers of RealTimeUpdates,
with the clock origin taken as 0. -/
def initFeed : FeedState :=
  { isConnected := true
    updates := []
    lastUpdate := 0
    stats :=
      { totalFloats := 3847
        activeFloats := 3621
        dataPoints := 1247832
        lastSync := 0 }
    wsRef := none
    reconnectTimeout := none
    nextSocket := 0
    nextTimer := 0
    liveSockets := []
    closeRequested := []
    activeTimers := [] }

/-- Folding a trace of feed events from a given state. -/
def runFeed (es : List FeedEv) (st : FeedState) : FeedState :=
  es.foldl (fun t e => feedStep e t) st

/-- Prior counters of the field-patch example: active 5, total 20. -/
def demoStats : Stats :=
  { totalFloats := 20, activeFloats := 5, dataPoints := 0, lastSync := 0 }

/-- Patch of the field-patch example: only the active counter is named. -/
def demoPatch : StatsPatch :=
  { totalFloats := none, activeFloats := some 10, dataPoints := none, lastSync := none }

/-- Payload carrying the demo patch and nothing else. -/
def demoPayload : Payload :=
  { type := none, message := none, status := none, data := none,
    stats := some demoPatch }

/-- Feed state already holding exactly 50 history entries. -/
def demoFeedFull : FeedState :=
  { initFeed with updates := List.replicate 50 (mkUpdate demoPayload 0) }

theorem turnsFor_length (id : String) : (turnsFor id).length = 11 := by
  simp [turnsFor]

theorem drop_turnsFor (id : String) (m : Nat) (hm : m < 11) :
    (turnsFor id).drop m = (id, m) :: (turnsFor id).drop (m + 1) := by
  interval_cases m <;> rfl

theorem turn_shape (j0 : ExportRequest) (m now sz : Nat) (hm : m < 11)
    (r : ExportRequest) (hr : JobShape j0 m r) :
    ∃ r2, applyTurn j0.id m now sz [r] = [r2] ∧ JobShape j0 (m + 1) r2 := by
  rcases m with _ | n
  · simp only [JobShape] at hr
    subst r
    refine ⟨{ j0 with status := .processing, progress := 0 }, ?_, ?_⟩
    · simp [applyTurn, tickUpdate]
    · simp [JobShape]
  · have hn : n < 10 := by omega
    simp only [JobShape, if_pos hn] at hr
    subst hr
    by_cases hk : n + 1 < 10
    · refine ⟨{ j0 with status := .processing, progress := 10 * (n + 1) }, ?_, ?_⟩
      · simp [applyTurn, if_pos hk, tickUpdate]
      · simp [JobShape, if_pos hk]
    · have hk10 : n + 1 = 10 := by omega
      refine ⟨{ j0 with
          status := .completed, progress := 100, completedAt := some now,
          downloadUrl := some "#", fileSize := some sz }, ?_, ?_⟩
      · simp [applyTurn, if_neg hk, completeUpdate, tickUpdate, hk10]
      · simp only [JobShape, hk10]
        exact ⟨now, sz, by simp⟩

theorem trackerStep_inv (e : TrackerEv) (s : TrackerState) (h : TrackerInv s) :
    TrackerInv (trackerStep e s) := by
  cases e with
  | setFormat f => exact h
  | toggleParam p => exact h
  | setTimeRangeEv t => exact h
  | setRegionEv r => exact h
  | openModal => exact h
  | closeModal => exact h
  | clickStartExport now =>
      by_cases hg : (s.isExporting || s.selectedParameters.isEmpty) = true
      · simpa [trackerStep, hg] using h
      · have hex : s.isExporting = false := by
          rcases Bool.or_eq_false_iff.mp (Bool.not_eq_true _ |>.mp hg) with ⟨h1, _⟩
          exact h1
        have hne : s.selectedParameters.isEmpty = false := by
          rcases Bool.or_eq_false_iff.mp (Bool.not_eq_true _ |>.mp hg) with ⟨_, h2⟩
          exact h2
        rcases h with ⟨_, hreq, hsch⟩ | ⟨j0, m, r, hx, _⟩
        · refine Or.inr ⟨newExportRequest now s, 0, newExportRequest now s,
            ?_, by omega, rfl, rfl, rfl, rfl, rfl, ?_, ?_, rfl⟩
          · simp [trackerStep, handleExport, hne, hex]
          · simp [trackerStep, handleExport, hne, hex, hsch]
          · simp [trackerStep, handleExport, hne, hex, hreq]
        · rw [hex] at hx
          exact absurd hx (by simp)
  | fireTurn now sz =>
      rcases hsched : s.schedule with _ | ⟨⟨id, k⟩, rest⟩
      · simpa [trackerStep, hsched] using h
      · rcases h with ⟨_, _, hsch⟩ | ⟨j0, m, r, hx, hm, hst, hpr, hca, hdl, hfs, hsch, hreq, hshape⟩
        · rw [hsched] at hsch
          exact absurd hsch (by simp)
        · have hm11 : m < 11 := by
            by_contra hge
            have : (turnsFor j0.id).drop m = [] :=
              List.drop_eq_nil_of_le (by simp [turnsFor_length]; omega)
            rw [hsched, this] at hsch
            exact absurd hsch (by simp)
          have hcons : ((j0.id, m) : String × Nat) :: (turnsFor j0.id).drop (m + 1)
              = (id, k) :: rest := by
            rw [← drop_turnsFor j0.id m hm11, ← hsch, hsched]
          injection hcons with hhd htl
          injection hhd with hid hk
          obtain ⟨r2, happ, hsh2⟩ := turn_shape j0 m now sz hm11 r hshape
          refine Or.inr ⟨j0, m + 1, r2, ?_, by omega, hst, hpr, hca, hdl, hfs, ?_, ?_, hsh2⟩
          · simpa [trackerStep, hsched] using hx
          · simp [trackerStep, hsched, ← htl]
          · simp only [trackerStep, hsched]
            simp [hreq, ← hid, ← hk, happ]

theorem runTracker_inv (es : List TrackerEv) (s : TrackerState) (h : TrackerInv s) :
    TrackerInv (runTracker es s) := by
  induction es generalizing s with
  | nil => exact h
  | cons e es ih => exact ih _ (trackerStep_inv e s h)

theorem trackerReachable_inv (s : TrackerState) (h : TrackerReachable s) :
    TrackerInv s := by
  obtain ⟨es, rfl⟩ := h
  exact runTracker_inv es initTracker (Or.inl ⟨rfl, rfl, rfl⟩)

theorem trackerStep_isExporting (e : TrackerEv) (s : TrackerState)
    (h : s.isExporting = true) : (trackerStep e s).isExporting = true := by
  cases e with
  | setFormat f => exact h
  | toggleParam p => exact h
  | setTimeRangeEv t => exact h
  | setRegionEv r => exact h
  | openModal => exact h
  | closeModal => exact h
  | clickStartExport now => simp [trackerStep, h]
  | fireTurn now sz =>
      simp only [trackerStep]
      split
      · exact h
      · exact h

theorem runTracker_isExporting (es : List TrackerEv) :
    ∀ s : TrackerState, s.isExporting = true →
      (runTracker es s).isExporting = true := by
  induction es with
  | nil => intro s h; exact h
  | cons e es ih => intro s h; exact ih _ (trackerStep_isExporting e s h)

theorem run_turns_shape (j0 : ExportRequest) (ts : List (Nat × Nat)) :
    ∀ (m : Nat) (s' : TrackerState) (r : ExportRequest),
      s'.exportRequests = [r] → s'.schedule = (turnsFor j0.id).drop m →
      JobShape j0 m r → m + ts.length ≤ 11 →
      ∃ r2,
        (runTracker (ts.map fun q => TrackerEv.fireTurn q.1 q.2) s').exportRequests = [r2] ∧
        (runTracker (ts.map fun q => TrackerEv.fireTurn q.1 q.2) s').schedule
          = (turnsFor j0.id).drop (m + ts.length) ∧
        JobShape j0 (m + ts.length) r2 := by
  induction ts with
  | nil =>
      intro m s' r h1 h2 h3 _
      exact ⟨r, h1, by simpa using h2, by simpa using h3⟩
  | cons q ts ih =>
      intro m s' r h1 h2 h3 hle
      have hm : m < 11 := by
        simp only [List.length_cons] at hle
        omega
      obtain ⟨r2, happ, hsh⟩ := turn_shape j0 m q.1 q.2 hm r h3
      have hstep_req :
          (trackerStep (TrackerEv.fireTurn q.1 q.2) s').exportRequests = [r2] := by
        simp only [trackerStep]
        rw [h2, drop_turnsFor j0.id m hm]
        simp [h1, happ]
      have hstep_sch :
          (trackerStep (TrackerEv.fireTurn q.1 q.2) s').schedule
            = (turnsFor j0.id).drop (m + 1) := by
        simp only [trackerStep]
        rw [h2, drop_turnsFor j0.id m hm]
      obtain ⟨r3, hh1, hh2, hh3⟩ :=
        ih (m + 1) (trackerStep (TrackerEv.fireTurn q.1 q.2) s') r2
          hstep_req hstep_sch hsh (by simp only [List.length_cons] at hle; omega)
      have harith : m + 1 + ts.length = m + (q :: ts).length := by
        simp only [List.length_cons]
        omega
      rw [harith] at hh2 hh3
      exact ⟨r3, hh1, hh2, hh3⟩

/-- C1: at every observable (reachable) state of the export job tracker,
every job in the job list has progress 100 exactly when its status is
completed, and carries a completedAt stamp exactly when its status is
completed.  The final simulateExport continuation runs the tick at
progress 100 and the completion update with no await between them, so no
observer of the event loop sees a state between the two. -/
theorem progress_hundred_iff_completed (s : TrackerState) (h : TrackerReachable s)
    (r : ExportRequest) (hr : r ∈ s.exportRequests) :
    (r.progress = 100 ↔ r.status = JobStatus.completed) ∧
    (r.completedAt.isSome ↔ r.status = JobStatus.completed) := by
  rcases trackerReachable_inv s h with ⟨_, hreq, _⟩ |
    ⟨j0, m, r0, _, hm, hst, hpr, hca, _, _, _, hreq, hshape⟩
  · rw [hreq] at hr
    cases hr
  · rw [hreq, List.mem_singleton] at hr
    subst hr
    rcases m with _ | n
    · simp only [JobShape] at hshape
      subst r
      rw [hpr, hst, hca]
      simp
    · by_cases hn : n < 10
      · rw [JobShape, if_pos hn] at hshape
        subst hshape
        simp only [hst, hca]
        simp only [Option.isSome_none]
        constructor
        · constructor
          · intro h100
            omega
          · intro hcc
            cases hcc
        · simp
      · rw [JobShape, if_neg hn] at hshape
        obtain ⟨cAt, sz, hshape⟩ := hshape
        subst hshape
        simp

/-- C1 witness: the theorem applied to the state reached by one accepted
click, at its single (pending) job. -/
theorem progress_hundred_iff_completed_witness :
    ((newExportRequest 5 initTracker).progress = 100 ↔
      (newExportRequest 5 initTracker).status = JobStatus.completed) ∧
    ((newExportRequest 5 initTracker).completedAt.isSome ↔
      (newExportRequest 5 initTracker).status = JobStatus.completed) :=
  progress_hundred_iff_completed
    (runTracker [TrackerEv.clickStartExport 5] initTracker)
    ⟨[TrackerEv.clickStartExport 5], rfl⟩
    (newExportRequest 5 initTracker)
    (by decide)

/-- C4: in every reachable tracker state the ids of the listed jobs are
pairwise distinct (at most one accepted submission can ever occur, since
the Start Export button is disabled from the first one on). -/
theorem export_ids_nodup (s : TrackerState) (h : TrackerReachable s) :
    (s.exportRequests.map (fun r => r.id)).Nodup := by
  rcases trackerReachable_inv s h with ⟨_, hreq, _⟩ |
    ⟨j0, m, r0, _, _, _, _, _, _, _, _, hreq, _⟩ <;> simp [hreq]

/-- C4 witness: the theorem applied to the state reached by one accepted
click. -/
theorem export_ids_nodup_witness :
    ((runTracker [TrackerEv.clickStartExport 3] initTracker).exportRequests.map
      (fun r => r.id)).Nodup :=
  export_ids_nodup _ ⟨[TrackerEv.clickStartExport 3], rfl⟩

/-- C5: handleExport with an empty parameter selection is rejected
synchronously (the toast.error early return, the InvalidRequest of the
spec) and the whole component state is returned unchanged. -/
theorem handleExport_rejects_empty (now : Nat) (s : TrackerState)
    (h : s.selectedParameters = []) :
    handleExport now s = (s, SubmitResult.invalidRequest) := by
  simp [handleExport, h]

/-- C5 witness: the theorem applied to the state in which both initially
selected parameters have been toggled off. -/
theorem handleExport_rejects_empty_witness :
    handleExport 9
        (runTracker [TrackerEv.toggleParam "temperature",
          TrackerEv.toggleParam "salinity"] initTracker)
      = (runTracker [TrackerEv.toggleParam "temperature",
          TrackerEv.toggleParam "salinity"] initTracker,
        SubmitResult.invalidRequest) :=
  handleExport_rejects_empty 9 _ (by decide)

/-- C10: once isExporting is true it stays true under every event trace
(no operation resets it), and a click on the then disabled Start Export
button is a no-op, so no further export can ever be submitted through it. -/
theorem isExporting_latched (s : TrackerState) (h : s.isExporting = true) :
    (∀ es, (runTracker es s).isExporting = true) ∧
    (∀ now, trackerStep (TrackerEv.clickStartExport now) s = s) :=
  ⟨fun es => runTracker_isExporting es s h, fun now => by simp [trackerStep, h]⟩

/-- C10 witness: the theorem applied after one accepted click. -/
theorem isExporting_latched_witness :
    (runTracker [TrackerEv.openModal]
      (runTracker [TrackerEv.clickStartExport 4] initTracker)).isExporting = true ∧
    trackerStep (TrackerEv.clickStartExport 7)
        (runTracker [TrackerEv.clickStartExport 4] initTracker)
      = runTracker [TrackerEv.clickStartExport 4] initTracker :=
  ⟨(isExporting_latched _ (by decide)).1 [TrackerEv.openModal],
    (isExporting_latched _ (by decide)).2 7⟩

/-- C6: from any reachable state in which the Start Export button is
enabled, an accepted click creates the single pending job, and the eleven
scheduled simulateExport continuations drive it so that after the j-th tick
(1 le j le 10) it is processing at progress 10 * (j - 1) --- consecutive
ticks advance progress by exactly 10 points --- and after the final
continuation it is completed with progress 100, a completedAt stamp, the
download reference and a file size, with no continuation left: a terminal
state within a bounded number of ticks, and progress 100 exactly at
completion. -/
theorem submitted_job_completes (s : TrackerState) (h : TrackerReachable s)
    (hx : s.isExporting = false) (hp : s.selectedParameters.isEmpty = false)
    (now : Nat) (ts : List (Nat × Nat)) (hts : ts.length = 11) :
    ((trackerStep (TrackerEv.clickStartExport now) s).exportRequests
        = [newExportRequest now s]) ∧
    (∀ j, 1 ≤ j → j ≤ 10 →
      (runTracker ((ts.take j).map (fun q => TrackerEv.fireTurn q.1 q.2))
          (trackerStep (TrackerEv.clickStartExport now) s)).exportRequests
        = [{ newExportRequest now s with
              status := JobStatus.processing, progress := 10 * (j - 1) }]) ∧
    (∃ cAt sz,
      (runTracker (ts.map (fun q => TrackerEv.fireTurn q.1 q.2))
          (trackerStep (TrackerEv.clickStartExport now) s)).exportRequests
        = [{ newExportRequest now s with
              status := JobStatus.completed, progress := 100,
              completedAt := some cAt, downloadUrl := some "#",
              fileSize := some sz }] ∧
      (runTracker (ts.map (fun q => TrackerEv.fireTurn q.1 q.2))
          (trackerStep (TrackerEv.clickStartExport now) s)).schedule = []) := by
  have hreq : s.exportRequests = [] ∧ s.schedule = [] := by
    rcases trackerReachable_inv s h with ⟨_, h1, h2⟩ | ⟨j0, m, r0, hx2, _⟩
    · exact ⟨h1, h2⟩
    · rw [hx] at hx2
      cases hx2
  have hclick1 :
      (trackerStep (TrackerEv.clickStartExport now) s).exportRequests
        = [newExportRequest now s] := by
    simp [trackerStep, hx, hp, handleExport, hreq.1]
  have hclick2 :
      (trackerStep (TrackerEv.clickStartExport now) s).schedule
        = (turnsFor (newExportRequest now s).id).drop 0 := by
    simp [trackerStep, hx, hp, handleExport, hreq.2]
  refine ⟨hclick1, ?_, ?_⟩
  · intro j hj1 hj10
    have hlen : (ts.take j).length = j := by
      rw [List.length_take, hts]
      omega
    obtain ⟨r2, hh1, _, hh3⟩ :=
      run_turns_shape (newExportRequest now s) (ts.take j) 0 _
        (newExportRequest now s) hclick1 hclick2 rfl (by omega)
    rw [hlen] at hh3
    simp only [Nat.zero_add] at hh3
    rcases j with _ | n
    · omega
    · rw [JobShape, if_pos (by omega)] at hh3
      subst hh3
      simpa using hh1
  · obtain ⟨r2, hh1, hh2, hh3⟩ :=
      run_turns_shape (newExportRequest now s) ts 0 _
        (newExportRequest now s) hclick1 hclick2 rfl (by omega)
    have h11 : 0 + ts.length = 10 + 1 := by omega
    rw [h11] at hh3
    rw [JobShape] at hh3
    rw [if_neg (by omega)] at hh3
    obtain ⟨cAt, sz, hh3⟩ := hh3
    subst hh3
    refine ⟨cAt, sz, hh1, ?_⟩
    rw [hh2, h11]
    exact List.drop_eq_nil_of_le (by simp [turnsFor])

/-- C6 witness: the theorem applied at the initial state with a concrete
trace of eleven continuation firings. -/
theorem submitted_job_completes_witness :
    (trackerStep (TrackerEv.clickStartExport 2) initTracker).exportRequests
      = [newExportRequest 2 initTracker] :=
  (submitted_job_completes initTracker ⟨[], rfl⟩ rfl rfl 2
    (List.replicate 11 ((3 : Nat), (4 : Nat))) (by simp)).1

theorem feedStep_updates_le (e : FeedEv) (st : FeedState)
    (h : st.updates.length ≤ 50) : (feedStep e st).updates.length ≤ 50 := by
  cases e with
  | connect => exact h
  | openEvent sock =>
      simp only [feedStep]
      split <;> exact h
  | messageEvent sock raw now =>
      simp only [feedStep]
      split
      · cases raw with
        | none => exact h
        | some p =>
            simp only [handleRealtimeUpdate, List.length_take]
            omega
      · exact h
  | closeEvent sock =>
      simp only [feedStep]
      split <;> exact h
  | errorEvent sock =>
      simp only [feedStep]
      split <;> exact h
  | cleanup =>
      simp only [feedStep]
      split <;> split <;> exact h
  | timerFire t =>
      simp only [feedStep]
      split <;> exact h

theorem runFeed_updates_le (es : List FeedEv) :
    ∀ st : FeedState, st.updates.length ≤ 50 →
      (runFeed es st).updates.length ≤ 50 := by
  induction es with
  | nil => intro st h; exact h
  | cons e es ih => intro st h; exact ih _ (feedStep_updates_le e st h)

/-- C2 evaluation: after mount (connect) and unmount (cleanup, which calls
close on the referenced socket and clears the pending timer, of which there
is none yet), the close event of the intentionally closed socket still
fires, and its handler arms a fresh reconnect timer that nothing ever
cancels; when its 5 second delay elapses, connectWebSocket runs again and a
second socket is opened after the explicit shutdown. -/
theorem reconnect_fires_after_cleanup :
    (runFeed [FeedEv.connect, FeedEv.cleanup] initFeed).activeTimers = [] ∧
    (runFeed [FeedEv.connect, FeedEv.cleanup,
        FeedEv.closeEvent 0] initFeed).activeTimers = [0] ∧
    (runFeed [FeedEv.connect, FeedEv.cleanup, FeedEv.closeEvent 0,
        FeedEv.timerFire 0] initFeed).nextSocket = 2 ∧
    (runFeed [FeedEv.connect, FeedEv.cleanup, FeedEv.closeEvent 0,
        FeedEv.timerFire 0] initFeed).wsRef = some 1 :=
  ⟨rfl, rfl, rfl, rfl⟩

/-- C3 counterexample: in the connected state reached by the first connect
and its open event, invoking connectWebSocket again is not a no-op: the
state changes and a second socket is created. -/
theorem connect_not_idempotent_cex :
    (runFeed [FeedEv.connect, FeedEv.openEvent 0] initFeed).isConnected = true ∧
    feedStep FeedEv.connect (runFeed [FeedEv.connect, FeedEv.openEvent 0] initFeed)
      ≠ runFeed [FeedEv.connect, FeedEv.openEvent 0] initFeed ∧
    (feedStep FeedEv.connect
        (runFeed [FeedEv.connect, FeedEv.openEvent 0] initFeed)).nextSocket
      = (runFeed [FeedEv.connect, FeedEv.openEvent 0] initFeed).nextSocket + 1 := by
  refine ⟨rfl, ?_, rfl⟩
  decide

/-- C3 amended: connectWebSocket is not idempotent.  Every invocation, in
every state --- connected or not --- creates a fresh socket, registers it as
live and overwrites wsRef with it, without closing the previously
referenced socket. -/
theorem connect_always_opens_new_socket (st : FeedState) :
    (feedStep FeedEv.connect st).nextSocket = st.nextSocket + 1 ∧
    (feedStep FeedEv.connect st).wsRef = some st.nextSocket ∧
    (feedStep FeedEv.connect st).liveSockets = st.nextSocket :: st.liveSockets :=
  ⟨rfl, rfl, rfl⟩

/-- C7: the event history never exceeds 50 entries over any event trace;
handleRealtimeUpdate places the new event at the front; and when the
history already holds 50 entries the insertion keeps the first 50 of the
prepended list, evicting exactly the oldest (last) entry and keeping the
length at 50. -/
theorem history_bounded (es : List FeedEv) (p : Payload) (now : Nat) (st : FeedState) :
    (runFeed es initFeed).updates.length ≤ 50 ∧
    (handleRealtimeUpdate p now st).updates.head? = some (mkUpdate p now) ∧
    (st.updates.length = 50 →
      (handleRealtimeUpdate p now st).updates
        = mkUpdate p now :: st.updates.dropLast ∧
      (handleRealtimeUpdate p now st).updates.length = 50) := by
  refine ⟨runFeed_updates_le es initFeed (by simp [initFeed]), rfl, ?_⟩
  intro h50
  have htake : (mkUpdate p now :: st.updates).take 50
      = mkUpdate p now :: st.updates.take 49 := rfl
  constructor
  · simp only [handleRealtimeUpdate, htake]
    rw [List.dropLast_eq_take, h50]
  · simp only [handleRealtimeUpdate, List.length_take, List.length_cons, h50]
    omega

/-- C7 witness: the theorem applied to the empty trace and to a feed state
already holding exactly 50 events. -/
theorem history_bounded_witness :
    (runFeed [] initFeed).updates.length ≤ 50 ∧
    (handleRealtimeUpdate demoPayload 7 demoFeedFull).updates.head?
      = some (mkUpdate demoPayload 7) ∧
    ((handleRealtimeUpdate demoPayload 7 demoFeedFull).updates
        = mkUpdate demoPayload 7 :: demoFeedFull.updates.dropLast ∧
      (handleRealtimeUpdate demoPayload 7 demoFeedFull).updates.length = 50) := by
  obtain ⟨h1, h2, h3⟩ := history_bounded [] demoPayload 7 demoFeedFull
  exact ⟨h1, h2, h3 (by simp [demoFeedFull])⟩

/-- C8: a malformed (unparseable) inbound payload is caught by the
onmessage handler and the component state is left entirely unchanged: no
event is produced, history, counters and connection state are untouched,
and the client does not crash. -/
theorem malformed_message_is_noop (sock now : Nat) (st : FeedState) :
    feedStep (FeedEv.messageEvent sock none now) st = st := by
  simp only [feedStep]
  split <;> rfl

/-- C9: a message carrying a counters patch overwrites exactly the named
counter fields and leaves every unnamed field unchanged. -/
theorem stats_merge_fieldwise (p : Payload) (sp : StatsPatch) (now : Nat)
    (st : FeedState) (h : p.stats = some sp) :
    (handleRealtimeUpdate p now st).stats
      = { totalFloats := sp.totalFloats.getD st.stats.totalFloats,
          activeFloats := sp.activeFloats.getD st.stats.activeFloats,
          dataPoints := sp.dataPoints.getD st.stats.dataPoints,
          lastSync := sp.lastSync.getD st.stats.lastSync } := by
  simp [handleRealtimeUpdate, h, mergeStats]

/-- C9 witness: the example of the specification, applying a patch naming
only the active counter (10) over prior counters active 5 and total 20
yields active 10 with total 20 preserved. -/
theorem stats_merge_fieldwise_witness :
    (handleRealtimeUpdate demoPayload 3 { initFeed with stats := demoStats }).stats
      = { totalFloats := 20, activeFloats := 10, dataPoints := 0, lastSync := 0 } :=
  (stats_merge_fieldwise demoPayload demoPatch 3
    { initFeed with stats := demoStats } rfl).trans rfl

end FloatChat
